import Mathlib

/-!
Verification of the provider credential orchestrator: OAuth state store,
config patch merger, provider matcher, and the gateway request handlers
(`models.auth.oauthStart`, `models.auth.apiKeySet`, OAuth callback).
JS objects and Map instances are embedded as insertion-ordered association
lists; JS numbers used as timestamps are embedded as Int.
-/

/-! ## Association-list primitives (JS object / Map semantics) -/

/-- Lookup of a key in an insertion-ordered association list (first match),
mirroring JS property access / `Map.get`. -/
def alistGet {α : Type} : List (String × α) → String → Option α
  | [], _ => none
  | (k, v) :: rest, key => if k = key then some v else alistGet rest key

/-- Assignment `o[key] = value` on a JS object / `Map.set`: overwrite in place
when the key is present, append otherwise. -/
def alistSet {α : Type} : List (String × α) → String → α → List (String × α)
  | [], key, value => [(key, value)]
  | (k, v) :: rest, key, value =>
    if k = key then (key, value) :: rest else (k, v) :: alistSet rest key value

/-- Deletion of a key, mirroring `Map.delete` (keys are unique in a JS Map, so
removing every occurrence agrees with removing the one entry). -/
def alistDelete {α : Type} : List (String × α) → String → List (String × α)
  | [], _ => []
  | (k, v) :: rest, key =>
    if k = key then alistDelete rest key else (k, v) :: alistDelete rest key




/-! ## Config values and the config patch merger (`mergeConfigPatch`) -/

/-- Structured configuration values: the JSON-like data manipulated by the
config patch merger and the configuration handlers. -/
inductive ConfigValue where
  | null : ConfigValue
  | bool (b : Bool) : ConfigValue
  | num (n : Int) : ConfigValue
  | str (s : String) : ConfigValue
  | arr (elems : List ConfigValue) : ConfigValue
  | obj (fields : List (String × ConfigValue)) : ConfigValue

/-- Source `isPlainRecord`: truthy, of object type, and not an array. Only a
plain object satisfies this; `null` and arrays do not. -/
def isPlainRecord : ConfigValue → Bool
  | ConfigValue.obj _ => true
  | _ => false

/-- JS truthiness of a structured value, used by `if (result.configPatch)`. -/
def ConfigValue.jsTruthy : ConfigValue → Bool
  | ConfigValue.null => false
  | ConfigValue.bool b => b
  | ConfigValue.num n => n != 0
  | ConfigValue.str s => s != ""
  | ConfigValue.arr _ => true
  | ConfigValue.obj _ => true

/-- Fields of an object value; empty for any other value. -/
def ConfigValue.objFields : ConfigValue → List (String × ConfigValue)
  | ConfigValue.obj fs => fs
  | _ => []

mutual

/-- Source `mergeConfigPatch`: if either side is not a plain record the patch
wins outright; otherwise overlay the patch entries onto a copy of the base. -/
def mergeConfigPatch : ConfigValue → ConfigValue → ConfigValue
  | ConfigValue.obj bf, ConfigValue.obj pf => ConfigValue.obj (mergeEntries bf pf)
  | _, patch => patch
termination_by base patch => sizeOf patch

/-- Loop of `mergeConfigPatch` over the entries of the patch object, threading
the accumulating result object `next` exactly as the source does. -/
def mergeEntries : List (String × ConfigValue) → List (String × ConfigValue) →
    List (String × ConfigValue)
  | next, [] => next
  | next, (key, value) :: rest =>
    mergeEntries (alistSet next key (mergeStep (alistGet next key) value)) rest
termination_by next patch => sizeOf patch

/-- Body of the merge loop for one patch entry: when the existing value and
the patch value are both plain records the merge recurses, otherwise the
patch value is assigned. -/
def mergeStep : Option ConfigValue → ConfigValue → ConfigValue
  | some (ConfigValue.obj ef), ConfigValue.obj vf =>
    mergeConfigPatch (ConfigValue.obj ef) (ConfigValue.obj vf)
  | _, value => value
termination_by o value => 1 + sizeOf value

end

/-! ## OAuth state store -/

/-- Ten minutes in milliseconds, the state token time-to-live. -/
def OAUTH_STATE_TTL_MS : Int := 10 * 60 * 1000

/-- One pending OAuth round-trip record, as stored in the state map. -/
structure OAuthStateEntry where
  providerId : String
  methodId : String
  agentDir : Option String
  workspaceDir : String
  successRedirectBase : Option String
  createdAt : Int
deriving Repr, DecidableEq

/-- The caller-supplied part of a state entry (`Omit<OAuthStateEntry, "createdAt">`). -/
structure OAuthStateInput where
  providerId : String
  methodId : String
  agentDir : Option String
  workspaceDir : String
  successRedirectBase : Option String
deriving Repr, DecidableEq

/-- Attach the creation timestamp to a state input, as `createOAuthState` does. -/
def OAuthStateInput.withCreatedAt (e : OAuthStateInput) (t : Int) : OAuthStateEntry :=
  ⟨e.providerId, e.methodId, e.agentDir, e.workspaceDir, e.successRedirectBase, t⟩

/-- The module-level `Map<string, OAuthStateEntry>`. -/
abbrev OAuthStateMap := List (String × OAuthStateEntry)

/-- Source `pruneExpired`: delete every entry whose age exceeds the TTL. -/
def pruneExpired (now : Int) (m : OAuthStateMap) : OAuthStateMap :=
  m.filter (fun kv => !decide (now - kv.2.createdAt > OAUTH_STATE_TTL_MS))

/-- Source `createOAuthState`: prune expired entries, then store the entry
under the freshly generated token with the current time. The random token and
the clock are explicit parameters of the embedding. -/
def createOAuthState (now : Int) (token : String) (entry : OAuthStateInput)
    (m : OAuthStateMap) : String × OAuthStateMap :=
  let pruned := pruneExpired now m
  (token, alistSet pruned token (entry.withCreatedAt now))

/-- Source `consumeOAuthState`: look up the token, unconditionally delete it,
then return the entry unless it was absent or older than the TTL. -/
def consumeOAuthState (now : Int) (token : String) (m : OAuthStateMap) :
    Option OAuthStateEntry × OAuthStateMap :=
  let entry := alistGet m token
  let m1 := alistDelete m token
  match entry with
  | none => (none, m1)
  | some e =>
    if now - e.createdAt > OAUTH_STATE_TTL_MS then (none, m1) else (some e, m1)

/-- Sample state input used by concrete witnesses. -/
def sampleStateInput : OAuthStateInput :=
  ⟨"openai", "oauth-default", none, "/workspace", none⟩

/-- Sample stored entry with creation time 0, used by concrete witnesses. -/
def expiredSampleEntry : OAuthStateEntry :=
  ⟨"openai", "oauth-default", none, "/workspace", none, 0⟩

/-! ## String helpers shared by the handlers -/

/-- Characters removed by JS `trim()` (the ASCII whitespace fragment, which
covers every identifier and parameter considered here). -/
def isTrimmable (c : Char) : Bool :=
  c == ' ' || c == '\t' || c == '\n' || c == '\r'

/-- JS `s.trim()`, computable by structural recursion. -/
def jsTrim (s : String) : String :=
  String.mk (((s.toList.dropWhile isTrimmable).reverse.dropWhile isTrimmable).reverse)

/-- ASCII lowercasing of one character. -/
def asciiLower (c : Char) : Char :=
  if 65 ≤ c.toNat && c.toNat ≤ 90 then Char.ofNat (c.toNat + 32) else c

/-- JS `s.toLowerCase()` (the ASCII fragment relevant to identifiers and
labels), computable by structural recursion. -/
def jsToLower (s : String) : String := String.mk (s.toList.map asciiLower)

/-- Optional chaining with trim: `value?.trim()`. -/
def optTrim (s : Option String) : Option String := s.map jsTrim

/-- JS truthiness of an optional string: present and non-empty. -/
def truthy : Option String → Bool
  | none => false
  | some s => s != ""

/-- JS `a || b` on an optional string `a`: `a` when truthy, otherwise `b`. -/
def jsOrElse (a : Option String) (b : String) : String :=
  match a with
  | some s => if s != "" then s else b
  | none => b

/-- JS `s.replace(/\/+$/, "")`: remove the maximal run of trailing slashes. -/
def stripTrailingSlashes (s : String) : String :=
  String.mk ((s.toList.reverse.dropWhile (fun c => c == '/')).reverse)

/-- UTF-8 encoding of one Unicode code point, as a list of byte values. -/
def utf8Bytes (n : Nat) : List Nat :=
  if n < 128 then [n]
  else if n < 2048 then [192 + n / 64, 128 + n % 64]
  else if n < 65536 then [224 + n / 4096, 128 + (n / 64) % 64, 128 + n % 64]
  else [240 + n / 262144, 128 + (n / 4096) % 64, 128 + (n / 64) % 64, 128 + n % 64]

/-- UTF-8 encoding of a string as a list of byte values. -/
def stringUtf8 (s : String) : List Nat :=
  (s.toList.map (fun c => utf8Bytes c.toNat)).flatten

/-- Bytes left unescaped by JS `encodeURIComponent`: ASCII letters, digits,
and `- _ . ! ~ * ( )` together with the apostrophe (byte 39). -/
def isUriUnreserved (b : Nat) : Bool :=
  (65 ≤ b && b ≤ 90) || (97 ≤ b && b ≤ 122) || (48 ≤ b && b ≤ 57) ||
    b == 45 || b == 95 || b == 46 || b == 33 || b == 126 || b == 42 ||
    b == 39 || b == 40 || b == 41

/-- Uppercase hexadecimal digit for a value below 16. -/
def hexDigitChar (n : Nat) : Char :=
  if n < 10 then Char.ofNat (48 + n) else Char.ofNat (55 + n)

/-- Percent-encoding of one byte, uppercase hexadecimal as in JS. -/
def percentEncodeByte (b : Nat) : String :=
  String.mk ['%', hexDigitChar (b / 16), hexDigitChar (b % 16)]

/-- JS `encodeURIComponent`: UTF-8 encode, keep unreserved bytes, percent
encode the rest. -/
def encodeURIComponent (s : String) : String :=
  (stringUtf8 s).foldl
    (fun acc b =>
      if isUriUnreserved b then acc.push (Char.ofNat b) else acc ++ percentEncodeByte b)
    ""

/-! ## Provider descriptors and the provider matcher -/

/-- One credential-acquisition method of a provider. The `kind` is the source
string tag (`oauth`, `api_key`, `token`); the two capability flags record
whether the source object carries `oauthStart` / `oauthCallback` functions.
The unused `hint` display field is omitted. -/
structure ProviderAuthMethod where
  id : String
  label : String
  kind : String
  hasOauthStart : Bool
  hasOauthCallback : Bool
deriving Repr, DecidableEq

/-- A provider descriptor supplied by the plugin collaborator. `models` is the
optional default connection template (`provider.models`), kept as a structured
value. -/
structure ProviderPlugin where
  id : String
  label : String
  aliases : Option (List String)
  auth : List ProviderAuthMethod
  models : Option ConfigValue

/-- Modelled from the spec: `normalizeProviderId` is imported from
`agents/model-selection`, which is not part of this repository slice. The spec
describes identifier normalization as trim, case-fold and provider-specific
canonicalization; on the generic identifiers considered here this is trimming
plus case-folding. -/
def normalizeProviderId (raw : String) : String := jsToLower (jsTrim raw)

/-- Source `resolveProviderMatch` (gateway server-methods module): normalize
the trimmed raw identifier, match every descriptor by normalized primary id
first, then every descriptor by normalized alias, first match winning. -/
def resolveProviderMatch (providers : List ProviderPlugin) (rawProvider : String) :
    Option ProviderPlugin :=
  let normalized := normalizeProviderId (jsTrim rawProvider)
  (providers.find? (fun p => normalizeProviderId p.id == normalized)).orElse
    (fun _ => providers.find?
      (fun p => (p.aliases.getD []).any (fun a => normalizeProviderId a == normalized)))

/-- Source `resolveProviderMatch` (OAuth callback module): identical except
that the raw identifier is passed to `normalizeProviderId` untrimmed. -/
def resolveProviderMatchCb (providers : List ProviderPlugin) (providerId : String) :
    Option ProviderPlugin :=
  let normalized := normalizeProviderId providerId
  (providers.find? (fun p => normalizeProviderId p.id == normalized)).orElse
    (fun _ => providers.find?
      (fun p => (p.aliases.getD []).any (fun a => normalizeProviderId a == normalized)))

/-- Source `findOAuthMethod` (OAuth callback module): first method of oauth
kind whose id equals the stored method id or whose label matches it case
insensitively. -/
def findOAuthMethod (provider : ProviderPlugin) (methodId : String) :
    Option ProviderAuthMethod :=
  provider.auth.find? (fun m =>
    m.kind == "oauth" && (m.id == methodId || jsToLower m.label == jsToLower methodId))

/-- Source `pickOAuthMethod`: restrict to oauth-kind methods; without a raw
method id return the first; otherwise match by lowercased id, then by
lowercased label. -/
def pickOAuthMethod (provider : ProviderPlugin) (rawMethod : Option String) :
    Option ProviderAuthMethod :=
  let oauthMethods := provider.auth.filter (fun m => m.kind == "oauth")
  if oauthMethods.isEmpty then none
  else
    let raw := optTrim rawMethod
    if !truthy raw then oauthMethods.head?
    else
      let normalized := jsToLower (raw.getD "")
      (oauthMethods.find? (fun m => jsToLower m.id == normalized)).orElse
        (fun _ => oauthMethods.find? (fun m => jsToLower m.label == normalized))

/-- Source `pickApiKeyOrTokenMethod`: same selection restricted to methods of
kind `api_key` or `token`. -/
def pickApiKeyOrTokenMethod (provider : ProviderPlugin) (rawMethod : Option String) :
    Option ProviderAuthMethod :=
  let methods := provider.auth.filter (fun m => m.kind == "api_key" || m.kind == "token")
  if methods.isEmpty then none
  else
    let raw := optTrim rawMethod
    if !truthy raw then methods.head?
    else
      let normalized := jsToLower (raw.getD "")
      (methods.find? (fun m => jsToLower m.id == normalized)).orElse
        (fun _ => methods.find? (fun m => jsToLower m.label == normalized))

/-- Descriptor used by the C6 scenario: primary id `openai`, alias `oai`. -/
def openaiDescriptor : ProviderPlugin :=
  ⟨"openai", "OpenAI", some ["oai"], [], none⟩

/-! ## OAuth callback handler (`handleAuthCallbackRequest`) -/

/-- A credential payload: the source objects carry a `type` tag (renamed
`credType` here, `type` being a Lean keyword) and the owning provider id;
other payload fields are irrelevant to the handler and omitted. -/
structure AuthCredential where
  credType : String
  provider : String
deriving Repr, DecidableEq

/-- Source `credentialMode`: map the credential type tag onto the persisted
mode, defaulting to `oauth`. -/
def credentialMode (cred : AuthCredential) : String :=
  if cred.credType == "api_key" then "api_key"
  else if cred.credType == "token" then "token"
  else "oauth"

/-- One credential profile produced by the code exchange. -/
structure ExchangeProfile where
  profileId : String
  credential : AuthCredential
deriving Repr, DecidableEq

/-- Result of `method.oauthCallback`: credential profiles plus an optional
configuration patch. -/
structure ExchangeResult where
  profiles : List ExchangeProfile
  configPatch : Option ConfigValue

/-- One `upsertAuthProfile` call recorded by the embedding. -/
structure AuthProfileWrite where
  profileId : String
  credential : AuthCredential
  agentDir : Option String
deriving Repr, DecidableEq

/-- Result of `readConfigFileSnapshot`: validity flag plus the parsed file. -/
structure ConfigSnapshot where
  valid : Bool
  config : ConfigValue

/-- Argument record of the `applyAuthProfileConfig` collaborator. -/
structure AuthProfileConfigParams where
  profileId : String
  provider : String
  mode : String
deriving Repr, DecidableEq

/-- Outcomes of the external collaborators invoked by the callback handler,
supplied as explicit parameters of the embedding: the resolved provider list,
the result of the one untrusted network call (`method.oauthCallback`, an
`Except` whose error is the stringified thrown exception), the fresh config
file snapshot, and the three pure config collaborators
(`applyAuthProfileConfig`, `applyLegacyMigrations` returning the migrated
document when a migration ran, and `validateConfigObjectWithPlugins` returning
the validated document on success). -/
structure CallbackDeps where
  providers : List ProviderPlugin
  exchange : Except String ExchangeResult
  snapshot : ConfigSnapshot
  applyAuthProfileConfig : ConfigValue → AuthProfileConfigParams → ConfigValue
  applyLegacyMigrations : ConfigValue → Option ConfigValue
  validateConfig : ConfigValue → Option ConfigValue

/-- The parsed GET request: HTTP method, URL path, and the four query
parameters read by the handler (absent parameters are `none`). -/
structure CallbackRequest where
  method : String
  pathname : String
  stateParam : Option String
  codeParam : Option String
  errorParam : Option String
  errorDescParam : Option String
deriving Repr, DecidableEq

/-- The HTTP response produced by the handler: either it declines the request
(returns false, letting another responder handle it) or it answers with a
redirect status and Location header. -/
inductive HttpResponse where
  | notHandled : HttpResponse
  | redirect (statusCode : Nat) (location : String) : HttpResponse
deriving Repr, DecidableEq

/-- Source `redirectToSuccess` target: the stored base stripped of trailing
slashes when truthy, otherwise the root path, with the success marker. -/
def successLocation (base : Option String) : String :=
  if truthy base then stripTrailingSlashes (base.getD "") ++ "?oauth=success"
  else "/?oauth=success"

/-- Source `redirectToError` target: as for success, with the error marker and
the percent-encoded message. -/
def errorLocation (message : String) (base : Option String) : String :=
  let encoded := encodeURIComponent message
  if truthy base then
    stripTrailingSlashes (base.getD "") ++ "?oauth=error&message=" ++ encoded
  else "/?oauth=error&message=" ++ encoded

/-- Everything observable about one callback invocation: the HTTP response,
the state store after the call, the `upsertAuthProfile` calls performed, and
the document passed to `writeConfigFile` when a config write happened. -/
structure CallbackResult where
  response : HttpResponse
  stateMap : OAuthStateMap
  profileWrites : List AuthProfileWrite
  configWrite : Option ConfigValue

/-- Source `handleAuthCallbackRequest`, with the collaborator outcomes, the
clock, and the state store passed explicitly. Follows the source line by
line: method/path guard, trimmed parameters, provider-error redirect, missing
state/code redirect, state consumption, provider/method resolution, code
exchange, profile writes, snapshot-guarded config merge pipeline, and the
final success redirect. -/
def handleAuthCallbackRequest (deps : CallbackDeps) (now : Int) (req : CallbackRequest)
    (store : OAuthStateMap) : CallbackResult :=
  if req.method != "GET" then ⟨HttpResponse.notHandled, store, [], none⟩
  else if req.pathname != "/auth/callback" then ⟨HttpResponse.notHandled, store, [], none⟩
  else
    let state := optTrim req.stateParam
    let code := optTrim req.codeParam
    let errorParam := optTrim req.errorParam
    if truthy errorParam then
      let msg := jsOrElse (optTrim req.errorDescParam) (errorParam.getD "")
      ⟨HttpResponse.redirect 302 (errorLocation msg none), store, [], none⟩
    else if !truthy state || !truthy code then
      ⟨HttpResponse.redirect 302 (errorLocation "Missing state or code" none), store, [], none⟩
    else
      match consumeOAuthState now (state.getD "") store with
      | (none, store1) =>
        ⟨HttpResponse.redirect 302 (errorLocation "Invalid or expired state" none),
          store1, [], none⟩
      | (some entry, store1) =>
        let provider := resolveProviderMatchCb deps.providers entry.providerId
        let methodFound :=
          match provider with
          | some p => findOAuthMethod p entry.methodId
          | none => none
        match methodFound with
        | some m =>
          if !m.hasOauthCallback then
            ⟨HttpResponse.redirect 302
                (errorLocation "Provider or OAuth method not found" entry.successRedirectBase),
              store1, [], none⟩
          else
            match deps.exchange with
            | Except.error err =>
              ⟨HttpResponse.redirect 302 (errorLocation err entry.successRedirectBase),
                store1, [], none⟩
            | Except.ok result =>
              let writes := result.profiles.map (fun pr =>
                AuthProfileWrite.mk pr.profileId pr.credential entry.agentDir)
              let configWrite :=
                if deps.snapshot.valid then
                  let next0 :=
                    match result.configPatch with
                    | some patch =>
                      if patch.jsTruthy then mergeConfigPatch deps.snapshot.config patch
                      else deps.snapshot.config
                    | none => deps.snapshot.config
                  let next1 := result.profiles.foldl
                    (fun acc pr => deps.applyAuthProfileConfig acc
                      ⟨pr.profileId, pr.credential.provider, credentialMode pr.credential⟩)
                    next0
                  let resolved := (deps.applyLegacyMigrations next1).getD next1
                  deps.validateConfig resolved
                else none
              ⟨HttpResponse.redirect 302 (successLocation entry.successRedirectBase),
                store1, writes, configWrite⟩
        | none =>
          ⟨HttpResponse.redirect 302
              (errorLocation "Provider or OAuth method not found" entry.successRedirectBase),
            store1, [], none⟩

/-! ## RPC handlers: `models.auth.oauthStart` and `models.auth.apiKeySet` -/

/-- The gateway configuration document: the handlers only touch the `models`
field, so the remaining top-level fields are kept abstract as an association
list that the handlers never read or write. -/
structure Config where
  models : Option ConfigValue
  otherFields : List (String × ConfigValue)

/-- Optional chaining `models?.[key]` on the configuration `models` field. -/
def configField (models : Option ConfigValue) (key : String) : Option ConfigValue :=
  match models with
  | some (ConfigValue.obj fs) => alistGet fs key
  | _ => none

/-- Lookup `config.models?.providers?.[pid]`: indexing anything but an object
yields `undefined`. -/
def providerEntry (config : Config) (pid : String) : Option ConfigValue :=
  match configField config.models "providers" with
  | some (ConfigValue.obj ps) => alistGet ps pid
  | _ => none

/-- JS nullish coalescing `a ?? b` on structured values: `null` and
`undefined` fall through to the default. -/
def jsNullish : Option ConfigValue → Option ConfigValue → Option ConfigValue
  | some ConfigValue.null, d => d
  | none, d => d
  | some v, _ => some v

/-- Own enumerable fields contributed by JS object spread. Spread of
`undefined`, `null`, numbers and booleans contributes nothing; the config
`models` and `providers` fields are objects whenever present, so the string
case (index properties) does not arise here. -/
def spreadFields : Option ConfigValue → List (String × ConfigValue)
  | some (ConfigValue.obj fs) => fs
  | _ => []

/-- Source shape check on the base provider block: truthy, of object type,
with a string `baseUrl` and an array `models`. Arrays and primitives fail the
field checks, so only a plain object with those two fields passes. -/
def baseConfigCheck : ConfigValue → Bool
  | ConfigValue.obj fs =>
    (match alistGet fs "baseUrl" with
      | some (ConfigValue.str _) => true
      | _ => false) &&
    (match alistGet fs "models" with
      | some (ConfigValue.arr _) => true
      | _ => false)
  | _ => false

/-- RPC response shape of `models.auth.apiKeySet`. -/
inductive RpcOutcome where
  | ok : RpcOutcome
  | invalidRequest (message : String) : RpcOutcome
  | unavailable (message : String) : RpcOutcome
deriving Repr, DecidableEq

/-- Observable outcome of one `models.auth.apiKeySet` call: the RPC response
and the document handed to `writeConfigFile`, `none` when no write was
attempted. -/
structure ApiKeySetResult where
  response : RpcOutcome
  written : Option Config

/-- Validated parameters of `models.auth.apiKeySet`. -/
structure ApiKeySetParams where
  providerId : String
  methodId : Option String
  apiKey : String
deriving Repr, DecidableEq

/-- Source `models.auth.apiKeySet` handler after parameter validation: trim
and reject the empty secret, resolve provider and api_key/token method,
derive the auth mode tag, locate the existing provider block or the plugin
default, reject when neither has the required shape, then build the merged
provider block and the new configuration document to write. -/
def apiKeySet (config : Config) (providers : List ProviderPlugin)
    (params : ApiKeySetParams) : ApiKeySetResult :=
  let trimmed := jsTrim params.apiKey
  if trimmed == "" then
    ⟨RpcOutcome.invalidRequest "apiKey is required and must be non-empty", none⟩
  else
    match resolveProviderMatch providers params.providerId with
    | none => ⟨RpcOutcome.invalidRequest ("Unknown provider: " ++ params.providerId), none⟩
    | some provider =>
      match pickApiKeyOrTokenMethod provider params.methodId with
      | none =>
        ⟨RpcOutcome.invalidRequest
            ("No API key or token auth method for provider " ++ params.providerId), none⟩
      | some method =>
        let authMode := if method.kind == "token" then "token" else "api-key"
        let existing := providerEntry config provider.id
        let base := jsNullish existing provider.models
        match base with
        | none =>
          ⟨RpcOutcome.unavailable
              ("Provider " ++ params.providerId ++
                " has no default config; add provider config first or use CLI."), none⟩
        | some b =>
          if !baseConfigCheck b then
            ⟨RpcOutcome.unavailable
                ("Provider " ++ params.providerId ++
                  " has no default config; add provider config first or use CLI."), none⟩
          else
            let merged := ConfigValue.obj
              (alistSet (alistSet b.objFields "apiKey" (ConfigValue.str trimmed))
                "auth" (ConfigValue.str authMode))
            let providersFields := spreadFields (configField config.models "providers")
            let nextModels := ConfigValue.obj
              (alistSet (spreadFields config.models) "providers"
                (ConfigValue.obj (alistSet providersFields provider.id merged)))
            ⟨RpcOutcome.ok, some ⟨some nextModels, config.otherFields⟩⟩

/-- RPC response shape of `models.auth.oauthStart`. -/
inductive OAuthStartResponse where
  | ok (url : String) (state : String) : OAuthStartResponse
  | invalidRequest (message : String) : OAuthStartResponse
  | unavailable (message : String) : OAuthStartResponse
deriving Repr, DecidableEq

/-- Observable outcome of one `models.auth.oauthStart` call: the RPC response
and the state store after the call. -/
structure OAuthStartResult where
  response : OAuthStartResponse
  store : OAuthStateMap
deriving Repr, DecidableEq

/-- Validated parameters of `models.auth.oauthStart`. -/
structure OAuthStartParams where
  providerId : String
  methodId : Option String
  redirectUri : Option String
  successRedirectBase : Option String
deriving Repr, DecidableEq

/-- Collaborator outcomes for `models.auth.oauthStart`: the agent scope
resolved from the loaded config and the result of the `method.oauthStart`
capability (the authorization URL, or the stringified thrown exception). -/
structure OAuthStartDeps where
  providers : List ProviderPlugin
  agentDir : Option String
  workspaceDir : String
  startUrl : Except String String

/-- Source `models.auth.oauthStart` handler after parameter validation:
resolve provider (INVALID_REQUEST when unknown), pick an oauth method
(INVALID_REQUEST when absent), require the start capability (UNAVAILABLE),
derive the callback address from the caller-supplied base (INVALID_REQUEST
when missing), create the state record, then invoke the start capability. -/
def oauthStart (deps : OAuthStartDeps) (params : OAuthStartParams) (now : Int)
    (token : String) (store : OAuthStateMap) : OAuthStartResult :=
  match resolveProviderMatch deps.providers params.providerId with
  | none =>
    ⟨OAuthStartResponse.invalidRequest ("Unknown provider: " ++ params.providerId), store⟩
  | some provider =>
    match pickOAuthMethod provider params.methodId with
    | none =>
      ⟨OAuthStartResponse.invalidRequest
          ("No OAuth auth method for provider " ++ params.providerId), store⟩
    | some method =>
      if !method.hasOauthStart then
        ⟨OAuthStartResponse.unavailable
            "OAuth from Control UI is not supported for this provider yet", store⟩
      else
        let redirectUri :=
          if truthy (optTrim params.redirectUri) then
            some (stripTrailingSlashes (params.redirectUri.getD "") ++ "/auth/callback")
          else none
        match redirectUri with
        | none =>
          ⟨OAuthStartResponse.invalidRequest
              "redirectUri is required for OAuth (gateway base URL)", store⟩
        | some _ =>
          let srb :=
            match optTrim params.successRedirectBase with
            | some s => if s != "" then some s else none
            | none => none
          let created := createOAuthState now token
            ⟨provider.id, method.id, deps.agentDir, deps.workspaceDir, srb⟩ store
          match deps.startUrl with
          | Except.error err => ⟨OAuthStartResponse.unavailable err, created.2⟩
          | Except.ok url => ⟨OAuthStartResponse.ok url created.1, created.2⟩

/-! ## Concrete values used by witnesses -/

/-- An api_key method, as in the repository test suite. -/
def testApiKeyMethod : ProviderAuthMethod := ⟨"api-key", "API Key", "api_key", false, false⟩

/-- Default connection template of the test provider. -/
def testProviderDefault : ConfigValue :=
  ConfigValue.obj
    [("baseUrl", ConfigValue.str "https://api.example.com"), ("models", ConfigValue.arr [])]

/-- Test provider with an api_key method and a plugin default template. -/
def testProvider : ProviderPlugin :=
  ⟨"test-provider", "Test Provider", none, [testApiKeyMethod], some testProviderDefault⟩

/-- Test provider with an api_key method but no plugin default template. -/
def testProviderNoDefault : ProviderPlugin :=
  ⟨"test-provider", "Test Provider", none, [testApiKeyMethod], none⟩

/-- A configuration document with no `models` field. -/
def emptyConfig : Config := ⟨none, []⟩

/-- Provider block expected to be written for the test provider. -/
def testMerged : ConfigValue :=
  ConfigValue.obj
    [("baseUrl", ConfigValue.str "https://api.example.com"), ("models", ConfigValue.arr []),
     ("apiKey", ConfigValue.str "sk-secret"), ("auth", ConfigValue.str "api-key")]

/-- Configuration document expected to be written for the test provider. -/
def testWritten : Config :=
  ⟨some (ConfigValue.obj
      [("providers", ConfigValue.obj [("test-provider", testMerged)])]), []⟩

/-- An oauth method carrying both start and callback capabilities. -/
def oauthMethodFull : ProviderAuthMethod := ⟨"oauth-default", "OAuth", "oauth", true, true⟩

/-- OAuth-capable provider used by the callback witnesses. -/
def oauthProvider : ProviderPlugin :=
  ⟨"openai", "OpenAI", some ["oai"], [oauthMethodFull], none⟩

/-- Credential produced by the sample exchange. -/
def sampleCredential : AuthCredential := ⟨"oauth", "openai"⟩

/-- Exchange result with one profile and no config patch. -/
def sampleExchangeResult : ExchangeResult := ⟨[⟨"profile-1", sampleCredential⟩], none⟩

/-- Callback collaborators with a successful exchange but an invalid config
file snapshot. -/
def invalidSnapshotDeps : CallbackDeps :=
  ⟨[oauthProvider], Except.ok sampleExchangeResult, ⟨false, ConfigValue.obj []⟩,
   fun c _ => c, fun _ => none, fun c => some c⟩

/-- Callback request with valid state and code parameters. -/
def validCallbackRequest : CallbackRequest :=
  ⟨"GET", "/auth/callback", some "stok", some "authcode", none, none⟩

/-- State entry stored for the sample callback round-trip. -/
def storedEntry : OAuthStateEntry :=
  ⟨"openai", "oauth-default", some "/agent", "/workspace", some "http://ui/providers", 0⟩

/-- Callback request carrying a provider error signal. -/
def errorCallbackRequest : CallbackRequest :=
  ⟨"GET", "/auth/callback", some "stok", some "authcode", some "access_denied",
    some "User cancelled"⟩

/-! ## Lemmas about the association-list primitives -/

theorem alistGet_set_self {α : Type} (l : List (String × α)) (k : String) (v : α) :
    alistGet (alistSet l k v) k = some v := by
  induction l with
  | nil => simp [alistGet, alistSet]
  | cons hd tl ih =>
    obtain ⟨k', v'⟩ := hd
    by_cases h : k' = k
    · simp [alistGet, alistSet, h]
    · simp [alistGet, alistSet, h, ih]

theorem alistGet_set_ne {α : Type} (l : List (String × α)) (k k' : String) (v : α)
    (h : k' ≠ k) : alistGet (alistSet l k v) k' = alistGet l k' := by
  induction l with
  | nil => simp [alistGet, alistSet, Ne.symm h]
  | cons hd tl ih =>
    obtain ⟨k0, v0⟩ := hd
    by_cases h0 : k0 = k
    · subst h0
      simp [alistGet, alistSet, Ne.symm h]
    · simp only [alistSet, if_neg h0]
      by_cases h1 : k0 = k'
      · simp [alistGet, h1]
      · simp [alistGet, h1, ih]

theorem alistGet_delete_self {α : Type} (l : List (String × α)) (k : String) :
    alistGet (alistDelete l k) k = none := by
  induction l with
  | nil => simp [alistGet, alistDelete]
  | cons hd tl ih =>
    obtain ⟨k', v'⟩ := hd
    by_cases h : k' = k
    · simp [alistDelete, h, ih]
    · simp [alistGet, alistDelete, h, ih]


/-- Spread of an optional object exposes exactly its fields to lookup. -/
theorem alistGet_spreadFields (om : Option ConfigValue) (k : String) :
    alistGet (spreadFields om) k = configField om k := by
  cases om with
  | none => rfl
  | some v => cases v <;> rfl

/-- Lookup in the spread of the providers table agrees with `providerEntry`. -/
theorem alistGet_spread_providers (config : Config) (q : String) :
    alistGet (spreadFields (configField config.models "providers")) q
      = providerEntry config q := by
  unfold providerEntry
  cases h : configField config.models "providers" with
  | none => rfl
  | some v => cases v <;> rfl

/-- Field lookup in the rebuilt `models` object: the `providers` key holds the
new table, every other key is unchanged. -/
theorem configField_next (mo : Option ConfigValue) (pv : ConfigValue) (k : String) :
    configField (some (ConfigValue.obj (alistSet (spreadFields mo) "providers" pv))) k
      = if k = "providers" then some pv else configField mo k := by
  by_cases h : k = "providers"
  · subst h; simp [configField, alistGet_set_self]
  · simp [configField, alistGet_set_ne _ _ _ _ h, alistGet_spreadFields, h]

/-- Provider lookup in the rebuilt configuration: the updated provider id
holds the merged block, every other id is unchanged. -/
theorem providerEntry_next (config : Config) (pid : String) (merged : ConfigValue)
    (co : List (String × ConfigValue)) (q : String) :
    providerEntry ⟨some (ConfigValue.obj (alistSet (spreadFields config.models) "providers"
        (ConfigValue.obj (alistSet (spreadFields (configField config.models "providers"))
          pid merged)))), co⟩ q
      = if q = pid then some merged else providerEntry config q := by
  by_cases h : q = pid
  · subst h
    simp [providerEntry, configField_next, alistGet_set_self]
  · simp [providerEntry, configField_next, alistGet_set_ne _ _ _ _ h, h,
      alistGet_spread_providers]

/-! Â§ -/

/-! ## Claim theorems -/

/-- C1, counterexample: the claim quantifies over every base value, but when
the base is not a plain record (here an array) the patch wins outright, so
merging with the empty patch does not return the base. -/
theorem mergeConfigPatch_empty_patch_not_id :
    ¬ (mergeConfigPatch (ConfigValue.arr []) (ConfigValue.obj []) = ConfigValue.arr []) := by
  intro h
  simp [mergeConfigPatch] at h

/-- C1, amended: merging a plain-record base with the empty patch returns the
base; the merge is right-biased on leaf conflicts, deep for nested plain
records, and replaces arrays wholesale; and whenever either side is not a
plain record the patch value wins outright. The function is a total Lean
function, hence side-effect-free. -/
theorem mergeConfigPatch_spec_equations :
    (∀ fields, mergeConfigPatch (ConfigValue.obj fields) (ConfigValue.obj [])
      = ConfigValue.obj fields)
    ∧ mergeConfigPatch (ConfigValue.obj [("a", ConfigValue.num 1)])
        (ConfigValue.obj [("a", ConfigValue.num 2)])
      = ConfigValue.obj [("a", ConfigValue.num 2)]
    ∧ mergeConfigPatch
        (ConfigValue.obj [("a", ConfigValue.obj [("b", ConfigValue.num 1), ("c", ConfigValue.num 2)])])
        (ConfigValue.obj [("a", ConfigValue.obj [("b", ConfigValue.num 9)])])
      = ConfigValue.obj [("a", ConfigValue.obj [("b", ConfigValue.num 9), ("c", ConfigValue.num 2)])]
    ∧ mergeConfigPatch
        (ConfigValue.obj [("a", ConfigValue.arr [ConfigValue.num 1, ConfigValue.num 2])])
        (ConfigValue.obj [("a", ConfigValue.arr [ConfigValue.num 3])])
      = ConfigValue.obj [("a", ConfigValue.arr [ConfigValue.num 3])]
    ∧ (∀ base patch, isPlainRecord base = false ∨ isPlainRecord patch = false →
        mergeConfigPatch base patch = patch) := by
  refine ⟨?_, ?_, ?_, ?_, ?_⟩
  · intro fields
    simp [mergeConfigPatch, mergeEntries]
  · simp [mergeConfigPatch, mergeEntries, mergeStep, alistGet, alistSet]
  · simp [mergeConfigPatch, mergeEntries, mergeStep, alistGet, alistSet]
  · simp [mergeConfigPatch, mergeEntries, mergeStep, alistGet, alistSet]
  · intro base patch h
    cases base <;> cases patch <;> simp_all [isPlainRecord, mergeConfigPatch]

/-- C1, witness for the amended theorem at concrete inputs. -/
theorem mergeConfigPatch_spec_equations_witness :
    mergeConfigPatch (ConfigValue.obj [("x", ConfigValue.bool true)]) (ConfigValue.obj [])
      = ConfigValue.obj [("x", ConfigValue.bool true)]
    ∧ (isPlainRecord (ConfigValue.num 7) = false ∨ isPlainRecord (ConfigValue.obj []) = false)
    ∧ mergeConfigPatch (ConfigValue.num 7) (ConfigValue.obj []) = ConfigValue.obj [] :=
  ⟨mergeConfigPatch_spec_equations.1 _,
   Or.inl rfl,
   mergeConfigPatch_spec_equations.2.2.2.2 _ _ (Or.inl rfl)⟩

/-- C2: consuming a token immediately after creation (within the TTL) returns
the original entry stamped with its creation time, and a second consume of the
same token returns not-found, because consumption unconditionally deletes the
record. -/
theorem create_then_consume_once (m : OAuthStateMap) (now now2 : Int) (token : String)
    (inp : OAuthStateInput) (h : now2 - now ≤ OAUTH_STATE_TTL_MS) :
    ((consumeOAuthState now2 (createOAuthState now token inp m).1
        (createOAuthState now token inp m).2).1 = some (inp.withCreatedAt now)) ∧
    ((consumeOAuthState now2 (createOAuthState now token inp m).1
        (consumeOAuthState now2 (createOAuthState now token inp m).1
          (createOAuthState now token inp m).2).2).1 = none) := by
  have hget : alistGet (alistSet (pruneExpired now m) token (inp.withCreatedAt now)) token
      = some (inp.withCreatedAt now) := alistGet_set_self _ _ _
  have hcond : ¬ (now2 - (inp.withCreatedAt now).createdAt > OAUTH_STATE_TTL_MS) := by
    simp only [OAuthStateInput.withCreatedAt]
    exact not_lt.mpr h
  constructor
  · simp [createOAuthState, consumeOAuthState, hget, hcond]
  · simp [createOAuthState, consumeOAuthState, hget, hcond, alistGet_delete_self]

/-- C2, witness at a concrete creation and a consume five milliseconds later. -/
theorem create_then_consume_once_witness :
    ((5 : Int) - 0 ≤ OAUTH_STATE_TTL_MS) ∧
    (((consumeOAuthState 5 (createOAuthState 0 "tok123" sampleStateInput []).1
        (createOAuthState 0 "tok123" sampleStateInput []).2).1
      = some (sampleStateInput.withCreatedAt 0)) ∧
    ((consumeOAuthState 5 (createOAuthState 0 "tok123" sampleStateInput []).1
        (consumeOAuthState 5 (createOAuthState 0 "tok123" sampleStateInput []).1
          (createOAuthState 0 "tok123" sampleStateInput []).2).2).1 = none)) :=
  ⟨by decide, create_then_consume_once [] 0 5 "tok123" sampleStateInput (by decide)⟩

/-- C3: consuming a token whose stored entry is older than the TTL returns
not-found, and the expired entry is deleted by the attempt. -/
theorem consume_expired_not_found (m : OAuthStateMap) (now : Int) (token : String)
    (e : OAuthStateEntry) (hfound : alistGet m token = some e)
    (hexp : now - e.createdAt > OAUTH_STATE_TTL_MS) :
    (consumeOAuthState now token m).1 = none ∧
    alistGet (consumeOAuthState now token m).2 token = none := by
  constructor
  · simp [consumeOAuthState, hfound, hexp]
  · simp [consumeOAuthState, hfound, hexp, alistGet_delete_self]

/-- C3, witness: an entry created at time 0 consumed at time 700000 (past the
600000 millisecond TTL) is reported not-found and removed. -/
theorem consume_expired_not_found_witness :
    (alistGet [("tokExp", expiredSampleEntry)] "tokExp" = some expiredSampleEntry) ∧
    ((700000 : Int) - expiredSampleEntry.createdAt > OAUTH_STATE_TTL_MS) ∧
    ((consumeOAuthState 700000 "tokExp" [("tokExp", expiredSampleEntry)]).1 = none ∧
      alistGet (consumeOAuthState 700000 "tokExp" [("tokExp", expiredSampleEntry)]).2 "tokExp"
        = none) :=
  ⟨rfl, by decide,
   consume_expired_not_found [("tokExp", expiredSampleEntry)] 700000 "tokExp"
     expiredSampleEntry rfl (by decide)⟩

/-- C6: provider matching first checks every descriptor's normalized primary
identifier, and only when no primary identifier matches falls back to the
normalized alias lists, first match in input-list order winning in each pass;
it is case-insensitive and alias-aware, matching `OpenAI`, `oai` and `OAI `
(with trailing space) against a descriptor with id `openai` and alias `oai`. -/
theorem provider_match_primary_then_alias :
    (∀ providers raw p,
      List.find? (fun q => normalizeProviderId q.id == normalizeProviderId (jsTrim raw)) providers
        = some p →
      resolveProviderMatch providers raw = some p) ∧
    (∀ providers raw,
      List.find? (fun q => normalizeProviderId q.id == normalizeProviderId (jsTrim raw)) providers
        = none →
      resolveProviderMatch providers raw =
        List.find?
          (fun q => (q.aliases.getD []).any
            (fun a => normalizeProviderId a == normalizeProviderId (jsTrim raw))) providers) ∧
    resolveProviderMatch [openaiDescriptor] "OpenAI" = some openaiDescriptor ∧
    resolveProviderMatch [openaiDescriptor] "oai" = some openaiDescriptor ∧
    resolveProviderMatch [openaiDescriptor] "OAI " = some openaiDescriptor := by
  refine ⟨?_, ?_, ?_, ?_, ?_⟩
  · intro providers raw p h
    simp [resolveProviderMatch, h, Option.orElse]
  · intro providers raw h
    simp [resolveProviderMatch, h, Option.orElse]
  · rfl
  · rfl
  · rfl

/-- C6, witness: the primary-identifier pass applied to the concrete `OpenAI`
lookup. -/
theorem provider_match_primary_then_alias_witness :
    (List.find? (fun q => normalizeProviderId q.id == normalizeProviderId (jsTrim "OpenAI"))
      [openaiDescriptor] = some openaiDescriptor) ∧
    resolveProviderMatch [openaiDescriptor] "OpenAI" = some openaiDescriptor :=
  ⟨rfl, provider_match_primary_then_alias.1 [openaiDescriptor] "OpenAI" openaiDescriptor rfl⟩

/-- C5: a provider-signalled error makes the handler respond immediately with
a 302 redirect to the error destination carrying the trimmed
`error_description` when non-empty and the `error` code otherwise, with the
state store untouched: no consume happens and the token record survives. -/
theorem callback_provider_error_redirect (deps : CallbackDeps) (now : Int)
    (req : CallbackRequest) (store : OAuthStateMap) (e : String)
    (hmethod : req.method = "GET") (hpath : req.pathname = "/auth/callback")
    (herr : optTrim req.errorParam = some e) (hne : e ≠ "") :
    handleAuthCallbackRequest deps now req store =
      ⟨HttpResponse.redirect 302
          ("/?oauth=error&message=" ++
            encodeURIComponent (jsOrElse (optTrim req.errorDescParam) e)),
        store, [], none⟩ := by
  simp [handleAuthCallbackRequest, hmethod, hpath, herr, truthy, hne, errorLocation, jsOrElse]

/-- C5, witness: the spec scenario `error=access_denied` with description
`User cancelled` redirects to the root error destination carrying the
encoded description, leaving the store (holding the still-valid token)
unchanged. -/
theorem callback_provider_error_redirect_witness :
    optTrim errorCallbackRequest.errorParam = some "access_denied" ∧
    handleAuthCallbackRequest invalidSnapshotDeps 0 errorCallbackRequest
        [("stok", storedEntry)] =
      ⟨HttpResponse.redirect 302 "/?oauth=error&message=User%20cancelled",
        [("stok", storedEntry)], [], none⟩ := by
  refine ⟨rfl, ?_⟩
  rw [callback_provider_error_redirect invalidSnapshotDeps 0 errorCallbackRequest
    [("stok", storedEntry)] "access_denied" rfl rfl rfl (by decide)]
  rfl

/-- C10: in the provider-error branch the redirect target is always the
default root destination; it never uses a stored success-redirect base, even
when the state store holds an entry for the supplied state token with a
success-redirect base, because the branch runs before any consume and the
store is returned unchanged. -/
theorem callback_error_branch_targets_root (deps : CallbackDeps) (now : Int)
    (req : CallbackRequest) (store : OAuthStateMap) (entry : OAuthStateEntry) (b : String)
    (hmethod : req.method = "GET") (hpath : req.pathname = "/auth/callback")
    (e : String) (herr : optTrim req.errorParam = some e) (hne : e ≠ "")
    (hentry : alistGet store ((optTrim req.stateParam).getD "") = some entry)
    (hbase : entry.successRedirectBase = some b) :
    (handleAuthCallbackRequest deps now req store).response =
      HttpResponse.redirect 302
        ("/?oauth=error&message=" ++
          encodeURIComponent (jsOrElse (optTrim req.errorDescParam) e)) ∧
    (handleAuthCallbackRequest deps now req store).stateMap = store := by
  constructor <;>
    simp [handleAuthCallbackRequest, hmethod, hpath, herr, truthy, hne, errorLocation,
      jsOrElse]

/-- C10, witness: the stored entry under `stok` carries a success-redirect
base, yet the provider-error redirect targets the root destination. -/
theorem callback_error_branch_targets_root_witness :
    alistGet [("stok", storedEntry)] ((optTrim errorCallbackRequest.stateParam).getD "")
      = some storedEntry ∧
    storedEntry.successRedirectBase = some "http://ui/providers" ∧
    ((handleAuthCallbackRequest invalidSnapshotDeps 0 errorCallbackRequest
        [("stok", storedEntry)]).response =
      HttpResponse.redirect 302
        ("/?oauth=error&message=" ++
          encodeURIComponent (jsOrElse (optTrim errorCallbackRequest.errorDescParam)
            "access_denied")) ∧
    (handleAuthCallbackRequest invalidSnapshotDeps 0 errorCallbackRequest
        [("stok", storedEntry)]).stateMap = [("stok", storedEntry)]) :=
  ⟨rfl, rfl,
   callback_error_branch_targets_root invalidSnapshotDeps 0 errorCallbackRequest
     [("stok", storedEntry)] storedEntry "http://ui/providers" rfl rfl "access_denied"
     rfl (by decide) rfl rfl⟩

/-- C9: `models.auth.oauthStart` with a provider id matching no descriptor
(neither by normalized primary id nor by alias) responds INVALID_REQUEST and
returns the state store unchanged: no state record is created. -/
theorem oauthStart_unknown_provider (deps : OAuthStartDeps) (params : OAuthStartParams)
    (now : Int) (token : String) (store : OAuthStateMap)
    (hprov : resolveProviderMatch deps.providers params.providerId = none) :
    oauthStart deps params now token store =
      ⟨OAuthStartResponse.invalidRequest ("Unknown provider: " ++ params.providerId),
        store⟩ := by
  simp [oauthStart, hprov]

/-- C9, witness: an unknown provider id against the openai descriptor list. -/
theorem oauthStart_unknown_provider_witness :
    resolveProviderMatch [openaiDescriptor] "doesnotexist" = none ∧
    oauthStart ⟨[openaiDescriptor], none, "/workspace", Except.error "no start"⟩
        ⟨"doesnotexist", none, none, none⟩ 0 "tokX" [] =
      ⟨OAuthStartResponse.invalidRequest ("Unknown provider: " ++ "doesnotexist"), []⟩ :=
  ⟨rfl, oauthStart_unknown_provider
    ⟨[openaiDescriptor], none, "/workspace", Except.error "no start"⟩
    ⟨"doesnotexist", none, none, none⟩ 0 "tokX" [] rfl⟩

/-- C4: when the state is consumed, the code exchange succeeds, but the fresh
configuration-file snapshot is invalid, the handler writes every credential
profile of the exchange result to the profile store, performs no configuration
write, and still redirects the browser to the success destination. -/
theorem callback_invalid_snapshot_skips_config (deps : CallbackDeps) (now : Int)
    (req : CallbackRequest) (store : OAuthStateMap) (entry : OAuthStateEntry)
    (store1 : OAuthStateMap) (p : ProviderPlugin) (m : ProviderAuthMethod)
    (result : ExchangeResult)
    (hmethod : req.method = "GET") (hpath : req.pathname = "/auth/callback")
    (herr : truthy (optTrim req.errorParam) = false)
    (hstate : truthy (optTrim req.stateParam) = true)
    (hcode : truthy (optTrim req.codeParam) = true)
    (hconsume : consumeOAuthState now ((optTrim req.stateParam).getD "") store
      = (some entry, store1))
    (hprov : resolveProviderMatchCb deps.providers entry.providerId = some p)
    (hfind : findOAuthMethod p entry.methodId = some m)
    (hcb : m.hasOauthCallback = true)
    (hex : deps.exchange = Except.ok result)
    (hsnap : deps.snapshot.valid = false) :
    handleAuthCallbackRequest deps now req store =
      ⟨HttpResponse.redirect 302 (successLocation entry.successRedirectBase), store1,
        result.profiles.map (fun pr =>
          AuthProfileWrite.mk pr.profileId pr.credential entry.agentDir),
        none⟩ := by
  simp [handleAuthCallbackRequest, hmethod, hpath, herr, hstate, hcode, hconsume,
    hprov, hfind, hcb, hex, hsnap]

/-- C4, witness: a full concrete round-trip in which the snapshot is invalid:
the profile is written, no config document is written, and the browser is
redirected to the stored success base. -/
theorem callback_invalid_snapshot_skips_config_witness :
    invalidSnapshotDeps.snapshot.valid = false ∧
    handleAuthCallbackRequest invalidSnapshotDeps 5 validCallbackRequest
        [("stok", storedEntry)] =
      ⟨HttpResponse.redirect 302 "http://ui/providers?oauth=success", [],
        [AuthProfileWrite.mk "profile-1" sampleCredential (some "/agent")], none⟩ := by
  refine ⟨rfl, ?_⟩
  rw [callback_invalid_snapshot_skips_config invalidSnapshotDeps 5 validCallbackRequest
    [("stok", storedEntry)] storedEntry [] oauthProvider oauthMethodFull sampleExchangeResult
    rfl rfl rfl rfl rfl rfl rfl rfl rfl rfl rfl]
  rfl

/-- C8: when the resolved provider has neither an existing configuration
block nor a plugin default template (the base is nullish), `apiKeySet`
responds UNAVAILABLE and hands nothing to `writeConfigFile`. -/
theorem apiKeySet_no_default_unavailable (config : Config)
    (providers : List ProviderPlugin) (params : ApiKeySetParams)
    (provider : ProviderPlugin) (method : ProviderAuthMethod)
    (htrim : jsTrim params.apiKey ≠ "")
    (hprov : resolveProviderMatch providers params.providerId = some provider)
    (hmeth : pickApiKeyOrTokenMethod provider params.methodId = some method)
    (hbase : jsNullish (providerEntry config provider.id) provider.models = none) :
    apiKeySet config providers params =
      ⟨RpcOutcome.unavailable ("Provider " ++ params.providerId ++
        " has no default config; add provider config first or use CLI."), none⟩ := by
  simp [apiKeySet, htrim, hprov, hmeth, hbase]

/-- C8, witness: the test provider without a plugin default template and a
configuration without a block for it. -/
theorem apiKeySet_no_default_unavailable_witness :
    jsTrim "sk-xxx" ≠ "" ∧
    jsNullish (providerEntry emptyConfig "test-provider") testProviderNoDefault.models
      = none ∧
    apiKeySet emptyConfig [testProviderNoDefault] ⟨"test-provider", none, "sk-xxx"⟩ =
      ⟨RpcOutcome.unavailable ("Provider " ++ "test-provider" ++
        " has no default config; add provider config first or use CLI."), none⟩ :=
  ⟨by decide, rfl,
   apiKeySet_no_default_unavailable emptyConfig [testProviderNoDefault]
     ⟨"test-provider", none, "sk-xxx"⟩ testProviderNoDefault testApiKeyMethod
     (by decide) rfl rfl rfl⟩

/-- C7: when `models.auth.apiKeySet` succeeds, the document handed to
`writeConfigFile` differs from the loaded configuration in exactly one place:
the entry for the resolved provider id inside `models.providers` becomes the
shallow override of the located base block (existing block, or plugin default)
with `apiKey` set to the trimmed secret and `auth` set to the mode tag derived
from the method kind (`token` maps to `token`, anything else to `api-key`);
every other provider entry, every other field of `models`, and every other
top-level field of the configuration are unchanged. -/
theorem apiKeySet_single_change (config : Config) (providers : List ProviderPlugin)
    (params : ApiKeySetParams) (provider : ProviderPlugin) (method : ProviderAuthMethod)
    (b : ConfigValue) (written : Config)
    (hprov : resolveProviderMatch providers params.providerId = some provider)
    (hmeth : pickApiKeyOrTokenMethod provider params.methodId = some method)
    (hbase : jsNullish (providerEntry config provider.id) provider.models = some b)
    (hok : apiKeySet config providers params = ⟨RpcOutcome.ok, some written⟩) :
    providerEntry written provider.id = some (ConfigValue.obj
      (alistSet (alistSet b.objFields "apiKey" (ConfigValue.str (jsTrim params.apiKey)))
        "auth" (ConfigValue.str (if method.kind = "token" then "token" else "api-key")))) ∧
    (∀ q, q ≠ provider.id → providerEntry written q = providerEntry config q) ∧
    (∀ k, k ≠ "providers" → configField written.models k = configField config.models k) ∧
    written.otherFields = config.otherFields := by
  by_cases htrim : jsTrim params.apiKey == ""
  · simp [apiKeySet, htrim] at hok
  · by_cases hchk : baseConfigCheck b
    · simp [apiKeySet, htrim, hprov, hmeth, hbase, hchk] at hok
      subst hok
      refine ⟨?_, ?_, ?_, rfl⟩
      · simp [providerEntry_next]
      · intro q hq
        simp [providerEntry_next, hq]
      · intro k hk
        simp [configField_next, hk]
    · simp [apiKeySet, htrim, hprov, hmeth, hbase, hchk] at hok

/-- C7, witness: the repository test scenario (provider with a plugin default
template, empty configuration, secret `sk-secret`) evaluated concretely. -/
theorem apiKeySet_single_change_witness :
    (apiKeySet emptyConfig [testProvider] ⟨"test-provider", none, "sk-secret"⟩ =
      ⟨RpcOutcome.ok, some testWritten⟩) ∧
    providerEntry testWritten "test-provider" = some testMerged ∧
    providerEntry testWritten "other-provider" = providerEntry emptyConfig "other-provider" ∧
    configField testWritten.models "agents" = configField emptyConfig.models "agents" ∧
    testWritten.otherFields = emptyConfig.otherFields := by
  have h := apiKeySet_single_change emptyConfig [testProvider]
    ⟨"test-provider", none, "sk-secret"⟩ testProvider testApiKeyMethod testProviderDefault
    testWritten rfl rfl rfl rfl
  exact ⟨rfl, h.1.trans (by rfl), h.2.1 "other-provider" (by decide),
    h.2.2.1 "agents" (by decide), h.2.2.2⟩
